import Mathlib

/-!
Shallow embedding of the antikythera-f1-generator pipeline core:
the pipeline orchestrator (src/backend/app/pipeline/video_pipeline.py),
the remote resource lifecycle manager
(src/backend/app/services/ovi_space_manager.py), the status enums
(src/backend/app/models/episode.py, src/backend/app/models/scene.py) and the
typed exceptions (src/backend/app/exceptions.py).

External collaborators (database, script/image/video/storage/upload services)
are modelled as oracles supplied in an environment record: each oracle gives
the result the collaborator call would have produced (a value, or the
exception it raised).  Opaque payloads that no claim inspects (file paths,
message texts, clip handles) are modelled as natural-number identifiers;
exception classes are modelled by an inductive type so that the class of the
error observed by a caller is visible.
-/

/-- EpisodeStatus enum from src/backend/app/models/episode.py. -/
inductive EpisodeStatus
| pending
| generating
| stitching
| uploading
| published
| failed
deriving DecidableEq

/-- SceneStatus enum from src/backend/app/models/scene.py. -/
inductive SceneStatus
| pending
| generating
| completed
| failed
deriving DecidableEq

/-- Exception classes raised or observed by the pipeline code
(src/backend/app/exceptions.py plus builtin ValueError / AttributeError).
Payloads that only carry message text are numbers; SceneGenerationError
keeps its scene_number field (exceptions.py lines 52-58). -/
inductive PyError
| valueError
| attributeError
| videoGenError
| sceneGenError (scene_number : Nat)
| storageError (code : Nat)
| genericError (code : Nat)
deriving DecidableEq

/-- One scene description returned by the script collaborator
(ScriptGenerator.generate_script -> EpisodeScript.scenes).  Only the
sequence number is inspected by the orchestrator logic under study;
character/dialogue/action/audio payloads are elided. -/
structure SceneDesc where
  scene_number : Nat
deriving DecidableEq

/-- Persisted Scene record fields used by the pipeline
(src/backend/app/models/scene.py). -/
structure Scene where
  scene_number : Nat
  status : SceneStatus
  retry_count : Nat
  last_error : Option PyError
  video_clip_path : Option Nat
deriving DecidableEq

/-- Scene record creation in VideoPipeline._generate_script (lines 183-191):
status PENDING, retry counter at its column default 0. -/
def mkScene (d : SceneDesc) : Scene :=
  { scene_number := d.scene_number
  , status := SceneStatus.pending
  , retry_count := 0
  , last_error := none
  , video_clip_path := none }

/-- Episode record fields mutated by the orchestrator
(src/backend/app/models/episode.py). -/
structure EpState where
  status : EpisodeStatus
  last_error : Option PyError
  retry_count : Nat
deriving DecidableEq

/-- VideoPipeline.MAX_SCENE_RETRIES (video_pipeline.py line 32). -/
def MAX_SCENE_RETRIES : Nat := 3

/-- Settings.STORAGE_RETENTION_RACES (config.py). -/
def STORAGE_RETENTION_RACES : Nat := 3

/-- Per-scene body of the loop in VideoPipeline._generate_video_clips
(lines 229-273): on success the scene is COMPLETED with its clip path set;
on an exception the scene is FAILED, the error recorded, and the persisted
retry counter incremented.  `gen` is the oracle for the whole per-scene
try-block (image generation, video generation, storage upload). -/
def applyGen (gen : Nat → Except PyError Nat) (s : Scene) : Scene :=
  match gen s.scene_number with
  | Except.ok c =>
      { s with status := SceneStatus.completed, video_clip_path := some c }
  | Except.error e =>
      { s with status := SceneStatus.failed
             , last_error := some e
             , retry_count := s.retry_count + 1 }

/-- The abort check after a per-scene exception (lines 275-279): when the
incremented retry counter reaches MAX_SCENE_RETRIES the loop raises
SceneGenerationError(scene.scene_number, ...). -/
def sceneAbort (gen : Nat → Except PyError Nat) (s : Scene) : Option PyError :=
  match gen s.scene_number with
  | Except.ok _ => none
  | Except.error _ =>
      if MAX_SCENE_RETRIES ≤ s.retry_count + 1 then
        some (PyError.sceneGenError s.scene_number)
      else none

/-- The scene loop of VideoPipeline._generate_video_clips (lines 226-279):
scenes are processed in the order of the list produced by _generate_script;
the loop stops early only when sceneAbort fires, leaving later scenes
untouched.  Returns the updated scene records, the trace of scene numbers
processed (in processing order), and the raised exception if any. -/
def genClipsLoop (gen : Nat → Except PyError Nat) :
    List Scene → List Scene × List Nat × Option PyError
  | [] => ([], [], none)
  | s :: rest =>
    let s' := applyGen gen s
    match sceneAbort gen s with
    | some e => (s' :: rest, [s.scene_number], some e)
    | none =>
      let r := genClipsLoop gen rest
      (s' :: r.1, s.scene_number :: r.2.1, r.2.2)

/-- Environment of oracle results for one pipeline execution.  Each field is
what the corresponding external call would return or raise. -/
structure PipelineEnv where
  episodeExists : Bool
  initialStatus : EpisodeStatus
  initialRetry : Nat
  raceRound : Option Nat
  scriptResult : Except PyError (List SceneDesc)
  sceneGen : Nat → Except PyError Nat
  oviEnterOk : Bool
  stitchResult : Except PyError (Nat × Nat)
  uploadResult : Except PyError (Nat × Nat)
  cleanupResult : Except PyError (Nat × Nat)

/-- VideoPipeline._load_episode (lines 107-118): raises ValueError when no
Episode row exists for the id. -/
def loadEpisode (env : PipelineEnv) : Except PyError EpState :=
  if env.episodeExists then
    Except.ok { status := env.initialStatus
              , last_error := none
              , retry_count := env.initialRetry }
  else Except.error PyError.valueError

deriving instance DecidableEq for Except

/-- Outcome of one VideoPipeline.run execution: the final Episode field
values (none when the episode was never loaded), the Scene records, the
order in which scene numbers were processed by the asset loop, the trace of
writes to Episode.status, and the value returned or exception observed by
the caller of run(). -/
structure RunOutcome where
  episode : Option EpState
  scenes : List Scene
  procOrder : List Nat
  statusTrace : List EpisodeStatus
  result : Except PyError Nat
deriving DecidableEq

/-- VideoPipeline._handle_failure on a loaded episode (lines 514-529) plus
the re-raise in run() (line 105): status FAILED, last_error set, retry
counter incremented, the original exception propagated. -/
def failWith (ep : EpState) (scenes : List Scene) (ord : List Nat)
    (tr : List EpisodeStatus) (e : PyError) : RunOutcome :=
  { episode := some { ep with status := EpisodeStatus.failed
                            , last_error := some e
                            , retry_count := ep.retry_count + 1 }
  , scenes := scenes
  , procOrder := ord
  , statusTrace := tr ++ [EpisodeStatus.failed]
  , result := Except.error e }

/-- VideoPipeline.run (lines 50-105).  Phases in order: load, script
(status GENERATING), asset loop under the scoped Ovi acquisition, stitch
(status STITCHING), upload (status UPLOADING), cleanup, then PUBLISHED.
Any exception is caught once at the top; when the episode failed to load,
_handle_failure dereferences self.episode = None, so the AttributeError it
raises is what the caller observes instead of the original ValueError. -/
def run (env : PipelineEnv) : RunOutcome :=
  match loadEpisode env with
  | Except.error _ =>
    { episode := none, scenes := [], procOrder := [], statusTrace := []
    , result := Except.error PyError.attributeError }
  | Except.ok ep0 =>
    let ep1 := { ep0 with status := EpisodeStatus.generating }
    let tr1 := [EpisodeStatus.generating]
    match env.scriptResult with
    | Except.error e => failWith ep1 [] [] tr1 e
    | Except.ok descs =>
      let scenes0 := descs.map mkScene
      if env.oviEnterOk = false then
        failWith ep1 scenes0 [] tr1 PyError.videoGenError
      else
        let r := genClipsLoop env.sceneGen scenes0
        match r.2.2 with
        | some e => failWith ep1 r.1 r.2.1 tr1 e
        | none =>
          let ep2 := { ep1 with status := EpisodeStatus.stitching }
          let tr2 := tr1 ++ [EpisodeStatus.stitching]
          match env.stitchResult with
          | Except.error e => failWith ep2 r.1 r.2.1 tr2 e
          | Except.ok _ =>
            let ep3 := { ep2 with status := EpisodeStatus.uploading }
            let tr3 := tr2 ++ [EpisodeStatus.uploading]
            match env.uploadResult with
            | Except.error e => failWith ep3 r.1 r.2.1 tr3 e
            | Except.ok up =>
              let cleanup : Except PyError Unit :=
                match env.raceRound with
                | none => Except.ok ()
                | some round =>
                  if round ≤ STORAGE_RETENTION_RACES then Except.ok ()
                  else
                    match env.cleanupResult with
                    | Except.error e => Except.error e
                    | Except.ok _ => Except.ok ()
              match cleanup with
              | Except.error e => failWith ep3 r.1 r.2.1 tr3 e
              | Except.ok _ =>
                { episode := some { ep3 with status := EpisodeStatus.published }
                , scenes := r.1
                , procOrder := r.2.1
                , statusTrace := tr3 ++ [EpisodeStatus.published]
                , result := Except.ok up.2 }

/-!
Remote Resource Lifecycle Manager
(src/backend/app/services/ovi_space_manager.py).

The remote backend (HuggingFace space plus its Gradio API) is an oracle
`OviWorld`: `status i` is the result of the i-th space_info call and
`probe i` the success of the i-th liveness probe (view_api / start_session
try-block in verify_healthy).  The manager's in-memory session state tracks
how many of each call were made plus the _session_started flag, and every
operation also emits a trace of the externally visible actions it performed:
status reads (tagged by call site), restart commands, pause commands,
liveness probes and the inter-attempt backoff sleeps.  The wall-clock
startup timeout of wait_for_ready (5 minutes polled every 10 seconds) is
modelled by its poll budget of 30 polls per ensure-cycle.
-/

/-- SpaceStatus enum (ovi_space_manager.py lines 30-38). -/
inductive SpaceStatus
| RUNNING
| BUILDING
| SLEEPING
| PAUSED
| STOPPED
| ERROR
| UNKNOWN
deriving DecidableEq

/-- Oracle for the remote backend: successive space_info results and
successive liveness-probe outcomes. -/
structure OviWorld where
  status : Nat → SpaceStatus
  probe : Nat → Bool

/-- In-memory session state of one OviSpaceManager instance. -/
structure MgrState where
  nStatus : Nat
  nProbe : Nat
  sessionStarted : Bool
deriving DecidableEq

/-- Fresh manager state (constructor, lines 96-104). -/
def initMgr : MgrState := { nStatus := 0, nProbe := 0, sessionStarted := false }

/-- Externally visible actions of the manager, tagged by call site. -/
inductive OviEvent
| statusCheck (s : SpaceStatus)
| healthStatus (s : SpaceStatus)
| pollStatus (s : SpaceStatus)
| probeCall (ok : Bool)
| restartCmd
| pauseCmd
| backoffSleep (secs : Nat)
deriving DecidableEq

/-- OviSpaceManager.get_status (lines 130-143): one space_info call. -/
def getStatusW (w : OviWorld) (st : MgrState) : SpaceStatus × MgrState :=
  (w.status st.nStatus, { st with nStatus := st.nStatus + 1 })

/-- OviSpaceManager.start_space (lines 145-159): issues the restart command
and resets the client (clearing _session_started). -/
def startSpace (st : MgrState) : MgrState :=
  { st with sessionStarted := false }

/-- SpaceHealth result of verify_healthy (api_responsive and error_message
carry only reporting text and are elided). -/
structure SpaceHealth where
  status : SpaceStatus
  is_ready : Bool
deriving DecidableEq

/-- OviSpaceManager.verify_healthy (lines 218-258): re-reads the space
status; if not RUNNING the space is not ready; otherwise the liveness probe
(view_api plus the one-off start_session call) decides readiness. -/
def verifyHealthy (w : OviWorld) (st : MgrState) :
    SpaceHealth × MgrState × List OviEvent :=
  let s := w.status st.nStatus
  let st1 := { st with nStatus := st.nStatus + 1 }
  if s = SpaceStatus.RUNNING then
    let ok := w.probe st1.nProbe
    let st2 := { st1 with nProbe := st1.nProbe + 1,
                          sessionStarted := st1.sessionStarted || ok }
    ({ status := s, is_ready := ok }, st2,
      [OviEvent.healthStatus s, OviEvent.probeCall ok])
  else
    ({ status := s, is_ready := false }, st1, [OviEvent.healthStatus s])

/-- OviSpaceManager.wait_for_ready (lines 176-216): poll the status until
RUNNING (ready), ERROR (give up), or the poll budget for the 5-minute
timeout window is exhausted. -/
def waitForReady (w : OviWorld) : Nat → MgrState → Bool × MgrState × List OviEvent
  | 0, st => (false, st, [])
  | fuel + 1, st =>
    let s := w.status st.nStatus
    let st1 := { st with nStatus := st.nStatus + 1 }
    if s = SpaceStatus.RUNNING then (true, st1, [OviEvent.pollStatus s])
    else if s = SpaceStatus.ERROR then (false, st1, [OviEvent.pollStatus s])
    else
      let r := waitForReady w fuel st1
      (r.1, r.2.1, OviEvent.pollStatus s :: r.2.2)

/-- Poll budget of one ensure-cycle: DEFAULT_STARTUP_TIMEOUT_MINUTES (5)
times 60 seconds divided by POLL_INTERVAL_SECONDS (10). -/
def TIMEOUT_POLLS : Nat := 30

/-- The initial branch of one ensure_running iteration (lines 281-305):
RUNNING goes through verify_healthy and restarts on an unhealthy probe;
SLEEPING / PAUSED / STOPPED and ERROR issue one restart command; BUILDING
and UNKNOWN take no action.  Returns `some true` when the cycle may return
immediately. -/
def ensureBranch (w : OviWorld) (st1 : MgrState) (s : SpaceStatus) :
    Option Bool × MgrState × List OviEvent :=
  match s with
  | SpaceStatus.RUNNING =>
    let v := verifyHealthy w st1
    if v.1.is_ready then (some true, v.2.1, v.2.2)
    else (none, startSpace v.2.1, v.2.2 ++ [OviEvent.restartCmd])
  | SpaceStatus.SLEEPING => (none, startSpace st1, [OviEvent.restartCmd])
  | SpaceStatus.PAUSED => (none, startSpace st1, [OviEvent.restartCmd])
  | SpaceStatus.STOPPED => (none, startSpace st1, [OviEvent.restartCmd])
  | SpaceStatus.ERROR => (none, startSpace st1, [OviEvent.restartCmd])
  | SpaceStatus.BUILDING => (none, st1, [])
  | SpaceStatus.UNKNOWN => (none, st1, [])

/-- One full iteration of ensure_running's retry loop (lines 281-312),
without the backoff: status check, initial branch, then wait_for_ready
followed by a second verify_healthy when the wait succeeded. -/
def ensureAttempt (w : OviWorld) (st : MgrState) : Bool × MgrState × List OviEvent :=
  match ensureBranch w { st with nStatus := st.nStatus + 1 } (w.status st.nStatus) with
  | (some true, st2, t2) =>
      (true, st2, OviEvent.statusCheck (w.status st.nStatus) :: t2)
  | (_, st2, t2) =>
      if (waitForReady w TIMEOUT_POLLS st2).1 then
        ((verifyHealthy w (waitForReady w TIMEOUT_POLLS st2).2.1).1.is_ready,
         (verifyHealthy w (waitForReady w TIMEOUT_POLLS st2).2.1).2.1,
         OviEvent.statusCheck (w.status st.nStatus) ::
           (t2 ++ (waitForReady w TIMEOUT_POLLS st2).2.2 ++
             (verifyHealthy w (waitForReady w TIMEOUT_POLLS st2).2.1).2.2))
      else
        (false, (waitForReady w TIMEOUT_POLLS st2).2.1,
         OviEvent.statusCheck (w.status st.nStatus) ::
           (t2 ++ (waitForReady w TIMEOUT_POLLS st2).2.2))

/-- The retry loop of ensure_running (lines 281-321): `left` iterations
remain, `attempt` is the 0-based index of the current one; after a failed
attempt that is not the last, sleep (attempt + 1) * 30 seconds
(lines 315-318). -/
def ensureLoop (w : OviWorld) : Nat → Nat → MgrState → Bool × MgrState × List OviEvent
  | 0, _, st => (false, st, [])
  | left + 1, attempt, st =>
    if (ensureAttempt w st).1 then
      (true, (ensureAttempt w st).2.1, (ensureAttempt w st).2.2)
    else if left = 0 then
      (false, (ensureAttempt w st).2.1, (ensureAttempt w st).2.2)
    else
      ((ensureLoop w left (attempt + 1) (ensureAttempt w st).2.1).1,
       (ensureLoop w left (attempt + 1) (ensureAttempt w st).2.1).2.1,
       (ensureAttempt w st).2.2 ++
         OviEvent.backoffSleep ((attempt + 1) * 30) ::
           (ensureLoop w left (attempt + 1) (ensureAttempt w st).2.1).2.2)

/-- Default retry ceiling of ensure_running (max_retries, line 267). -/
def OVI_MAX_RETRIES : Nat := 3

/-- OviSpaceManager.ensure_running with its default arguments, as called by
the scoped acquisition (lines 264-321, 436). -/
def ensureRunning (w : OviWorld) (st : MgrState) : Bool × MgrState × List OviEvent :=
  ensureLoop w OVI_MAX_RETRIES 0 st

/-- OviSpaceManager.shutdown (lines 323-335): with auto_shutdown (the
default used by the pipeline) it issues the pause command; pause failures
are caught inside pause_space. -/
def shutdownOvi (autoShutdown : Bool) : Bool × List OviEvent :=
  if autoShutdown then (true, [OviEvent.pauseCmd]) else (true, [])

/-- OviSpaceManager.__aenter__ (lines 434-439): ensure_running, raising
VideoGenerationError when it reports failure. -/
def aenterOvi (w : OviWorld) (st : MgrState) :
    Except PyError MgrState × List OviEvent :=
  let r := ensureRunning w st
  if r.1 then (Except.ok r.2.1, r.2.2)
  else (Except.error PyError.videoGenError, r.2.2)

/-- The scoped acquisition `async with OviSpaceManager(...)` as used by the
pipeline (video_pipeline.py line 225, ovi_space_manager.py lines 434-443):
enter runs ensure_running and raises on failure (the body is never run);
when the body was entered, __aexit__ runs shutdown() whether the body
returned a value or an exception, and the body's outcome is then
propagated. -/
def withOviManager {α : Type} (w : OviWorld)
    (body : MgrState → Except PyError α × MgrState × List OviEvent) :
    Except PyError α × List OviEvent :=
  match aenterOvi w initMgr with
  | (Except.error e, t) => (Except.error e, t)
  | (Except.ok st1, t) =>
    let b := body st1
    let sd := shutdownOvi true
    (b.1, t ++ b.2.2 ++ sd.2)

/-- QUALITY_PRESETS table (ovi_space_manager.py lines 73-78). -/
def QUALITY_PRESETS : List (String × Nat) :=
  [(r"draft", 15), (r"standard", 30), (r"high", 50), (r"ultra", 75)]

/-- Python dict .get(key, default) over the presets table. -/
def presetsGet (q : String) (d : Nat) : Nat :=
  match QUALITY_PRESETS.find? (fun p => p.1 = q) with
  | some p => p.2
  | none => d

/-- The manager configuration produced by OviSpaceManager.__init__
(lines 80-104): sample_steps = QUALITY_PRESETS.get(quality, 30); the
constructor performs no validation and cannot fail. -/
structure OviMgrCfg where
  quality : String
  sample_steps : Nat
  auto_shutdown : Bool
deriving DecidableEq

/-- OviSpaceManager.__init__ restricted to the fields the claims inspect. -/
def mkOviManager (quality : String) : OviMgrCfg :=
  { quality := quality
  , sample_steps := presetsGet quality 30
  , auto_shutdown := true }

/-!
Concrete oracle environments used by counterexamples and witnesses.
-/

/-- A fully succeeding environment: one scene, every collaborator call
succeeds, no race associated (so no cleanup is attempted). -/
def envBase : PipelineEnv :=
  { episodeExists := true
  , initialStatus := EpisodeStatus.pending
  , initialRetry := 0
  , raceRound := none
  , scriptResult := Except.ok [{ scene_number := 1 }]
  , sceneGen := fun n => Except.ok n
  , oviEnterOk := true
  , stitchResult := Except.ok (0, 120)
  , uploadResult := Except.ok (7, 9)
  , cleanupResult := Except.ok (0, 0) }

/-- Environment whose episode id has no Job record. -/
def envMissing : PipelineEnv := { envBase with episodeExists := false }

/-- Environment whose cleanup-phase storage call raises: race round 5
exceeds the retention threshold 3, so cleanup_old_race runs and fails. -/
def envCleanupFail : PipelineEnv :=
  { envBase with raceRound := some 5
               , cleanupResult := Except.error (PyError.storageError 0) }

/-- Environment where the single scene's generation raises once (its fresh
retry counter reaches 1, below the ceiling of 3). -/
def envSceneFailOnce : PipelineEnv :=
  { envBase with sceneGen := fun _ => Except.error (PyError.genericError 0) }

/-- Environment whose script collaborator returns the scene descriptions
out of sequence order: scene 2 before scene 1. -/
def envOutOfOrder : PipelineEnv :=
  { envBase with
      scriptResult := Except.ok [{ scene_number := 2 }, { scene_number := 1 }] }

/-- Transition relation of the claimed status path: the linear chain
PENDING to GENERATING to STITCHING to UPLOADING to PUBLISHED, plus FAILED
from every non-terminal state. -/
def okStep : EpisodeStatus → EpisodeStatus → Bool
  | EpisodeStatus.pending, EpisodeStatus.generating => true
  | EpisodeStatus.generating, EpisodeStatus.stitching => true
  | EpisodeStatus.stitching, EpisodeStatus.uploading => true
  | EpisodeStatus.uploading, EpisodeStatus.published => true
  | EpisodeStatus.pending, EpisodeStatus.failed => true
  | EpisodeStatus.generating, EpisodeStatus.failed => true
  | EpisodeStatus.stitching, EpisodeStatus.failed => true
  | EpisodeStatus.uploading, EpisodeStatus.failed => true
  | _, _ => false

/-- Event classifier: the per-cycle status check of ensure_running. -/
def isStatusCheck : OviEvent → Bool
  | OviEvent.statusCheck _ => true
  | _ => false

/-- Event classifier: the backoff sleeps between ensure-cycle attempts. -/
def backoffSecs : OviEvent → Option Nat
  | OviEvent.backoffSleep n => some n
  | _ => none

/-- Oracle failing unit 7 only (the Scenario B shape). -/
def g7 : Nat → Except PyError Nat :=
  fun n => if n = 7 then Except.error (PyError.genericError 3) else Except.ok n

/-- Unit 7 with a persisted retry counter one below the ceiling. -/
def scene7 : Scene :=
  { scene_number := 7, status := SceneStatus.pending, retry_count := 2
  , last_error := none, video_clip_path := none }

/-- Backend that is already running and passes its liveness probes. -/
def wGood : OviWorld :=
  { status := fun _ => SpaceStatus.RUNNING, probe := fun _ => true }

/-- Backend permanently in the ERROR state: every ensure-cycle fails. -/
def wBad : OviWorld :=
  { status := fun _ => SpaceStatus.ERROR, probe := fun _ => true }

/-- Backend that is SLEEPING at the first status read and RUNNING from
then on, with passing probes. -/
def wSleep : OviWorld :=
  { status := fun i => if i = 0 then SpaceStatus.SLEEPING
                       else SpaceStatus.RUNNING
  , probe := fun _ => true }

/-- A body that returns normally without touching the backend. -/
def bodyOk : MgrState → Except PyError Nat × MgrState × List OviEvent :=
  fun st => (Except.ok 0, st, [])

/-- A body that raises. -/
def bodyRaise : MgrState → Except PyError Nat × MgrState × List OviEvent :=
  fun st => (Except.error (PyError.genericError 0), st, [])

/-- C10: for a quality string outside the four presets, construction of the
Lifecycle Manager succeeds (mkOviManager is total, as dict.get raises
nothing) and sample_steps falls back to 30, the standard preset value; the
four named presets give 15, 30, 50, 75. -/
theorem C10_quality_presets :
    (∀ q : String, q ≠ r"draft" → q ≠ r"standard" → q ≠ r"high" →
       q ≠ r"ultra" → (mkOviManager q).sample_steps = 30) ∧
    (mkOviManager (r"draft")).sample_steps = 15 ∧
    (mkOviManager (r"standard")).sample_steps = 30 ∧
    (mkOviManager (r"high")).sample_steps = 50 ∧
    (mkOviManager (r"ultra")).sample_steps = 75 := by
  refine ⟨?_, by decide, by decide, by decide, by decide⟩
  intro q h1 h2 h3 h4
  simp [mkOviManager, presetsGet, QUALITY_PRESETS, List.find?,
    Ne.symm h1, Ne.symm h2, Ne.symm h3, Ne.symm h4]

/-- Witness for C10 at the concrete quality string "cinematic". -/
theorem C10_quality_presets_witness :
    (mkOviManager (r"cinematic")).sample_steps = 30 :=
  C10_quality_presets.1 (r"cinematic")
    (by decide) (by decide) (by decide) (by decide)

/-- C3 (code bug): when no Job record exists, _load_episode raises a
ValueError, but run()'s top-level handler calls _handle_failure, which
dereferences self.episode = None; the resulting AttributeError is what the
caller of run() observes, masking the ValueError the spec promises.  No
retry of the load is attempted and no status is ever written. -/
theorem C3_missing_episode_observed_error :
    loadEpisode envMissing = Except.error PyError.valueError ∧
    (run envMissing).result = Except.error PyError.attributeError ∧
    (run envMissing).result ≠ Except.error PyError.valueError ∧
    (run envMissing).episode = none ∧
    (run envMissing).statusTrace = [] := by decide

/-- C1 counterexample: with every phase succeeding and the cleanup-phase
storage call raising a StorageError, the Job is marked FAILED and the error
re-raised — the run never reaches PUBLISHED, refuting the claim that a
cleanup failure is logged only and cannot move the Job away from
PUBLISHED. -/
theorem C1_counterexample :
    (run envCleanupFail).result = Except.error (PyError.storageError 0) ∧
    ((run envCleanupFail).episode.map EpState.status) =
      some EpisodeStatus.failed ∧
    EpisodeStatus.published ∉ (run envCleanupFail).statusTrace := by decide

/-- C2 counterexample: a Scene Unit that failed once (retry counter 1,
below the ceiling 3) is left FAILED, yet the pipeline still enters the
stitch phase — refuting the claim that stitching is not reached with a
FAILED unit outstanding. -/
theorem C2_counterexample :
    (∃ s ∈ (run envSceneFailOnce).scenes,
       s.status = SceneStatus.failed ∧ s.retry_count < MAX_SCENE_RETRIES) ∧
    EpisodeStatus.stitching ∈ (run envSceneFailOnce).statusTrace := by decide

/-- C9 counterexample: when the script collaborator returns scene 2 before
scene 1, the asset phase processes the units in that returned order [2, 1],
which is not strictly ascending — refuting the claim that processing is in
ascending sequence order regardless of the returned order. -/
theorem C9_counterexample :
    (run envOutOfOrder).procOrder = [2, 1] ∧
    ¬ List.Chain' (fun a b => a < b) (run envOutOfOrder).procOrder := by
  have h : (run envOutOfOrder).procOrder = [2, 1] := by decide
  refine ⟨h, ?_⟩
  rw [h]
  simp [List.chain'_cons]

/-- Amended C1: an exception raised by the cleanup-phase storage call
propagates to the top-level handler like any other phase failure: the Job
is marked FAILED with last_error set, the error is re-raised, and the run
never reaches PUBLISHED. -/
theorem C1_cleanup_failure_escalates (env : PipelineEnv) (e : PyError)
    (round : Nat) (descs : List SceneDesc) (x y : Nat × Nat)
    (hex : env.episodeExists = true)
    (hr : env.raceRound = some round)
    (hgt : STORAGE_RETENTION_RACES < round)
    (hc : env.cleanupResult = Except.error e)
    (hs : env.scriptResult = Except.ok descs)
    (ho : env.oviEnterOk = true)
    (ha : (genClipsLoop env.sceneGen (descs.map mkScene)).2.2 = none)
    (hst : env.stitchResult = Except.ok x)
    (hu : env.uploadResult = Except.ok y) :
    (run env).result = Except.error e ∧
    ((run env).episode.map EpState.status) = some EpisodeStatus.failed ∧
    ((run env).episode.bind EpState.last_error) = some e ∧
    EpisodeStatus.published ∉ (run env).statusTrace := by
  unfold run
  simp [loadEpisode, hex, hs, ho, ha, hst, hu, hr, hc, not_le.mpr hgt, failWith]

/-- Witness for the amended C1 at the concrete environment
envCleanupFail. -/
theorem C1_cleanup_failure_escalates_witness :
    (run envCleanupFail).result = Except.error (PyError.storageError 0) ∧
    ((run envCleanupFail).episode.map EpState.status) =
      some EpisodeStatus.failed ∧
    ((run envCleanupFail).episode.bind EpState.last_error) =
      some (PyError.storageError 0) ∧
    EpisodeStatus.published ∉ (run envCleanupFail).statusTrace :=
  C1_cleanup_failure_escalates envCleanupFail (PyError.storageError 0) 5
    [{ scene_number := 1 }] (0, 120) (7, 9) rfl rfl (by decide) rfl rfl rfl
    (by decide) rfl rfl

/-- Helper: the scene numbers processed by the asset loop are a take-front
of the input list's scene numbers (an abort truncates the loop). -/
theorem genClipsLoop_order_take (gen : Nat → Except PyError Nat) :
    ∀ scenes : List Scene, ∃ k,
      (genClipsLoop gen scenes).2.1 = (scenes.map Scene.scene_number).take k
  | [] => ⟨0, rfl⟩
  | s :: rest => by
    unfold genClipsLoop
    cases h : sceneAbort gen s with
    | some e =>
      exact ⟨1, by simp⟩
    | none =>
      obtain ⟨k, hk⟩ := genClipsLoop_order_take gen rest
      exact ⟨k + 1, by simp [hk]⟩

/-- Helper: a freshly created Scene Unit (retry counter 0) can never make
the abort check fire: the ceiling of 3 is unreachable in one attempt. -/
theorem mkScene_no_abort (gen : Nat → Except PyError Nat) (d : SceneDesc) :
    sceneAbort gen (mkScene d) = none := by
  unfold sceneAbort mkScene
  cases gen d.scene_number <;> simp [MAX_SCENE_RETRIES]

/-- Helper: on the scene list created by the script phase the asset loop
never raises: every unit starts at retry counter 0 and is attempted once,
so SceneGenerationError is unreachable within a single run. -/
theorem genClipsLoop_fresh_no_error (gen : Nat → Except PyError Nat) :
    ∀ descs : List SceneDesc,
      (genClipsLoop gen (descs.map mkScene)).2.2 = none
  | [] => rfl
  | d :: rest => by
    unfold genClipsLoop
    simp [mkScene_no_abort gen d, genClipsLoop_fresh_no_error gen rest]

/-- Amended C2: within one pipeline run the asset loop never raises — its
units are created with retry counter 0 and attempted once each, so the
ceiling of 3 cannot be reached — and the pipeline therefore always
proceeds to the stitch phase, FAILED units outstanding or not
(the corresponding counterexample exhibits an outstanding FAILED unit). -/
theorem C2_stitch_gating (env : PipelineEnv) (descs : List SceneDesc)
    (hex : env.episodeExists = true)
    (hs : env.scriptResult = Except.ok descs)
    (ho : env.oviEnterOk = true) :
    (genClipsLoop env.sceneGen (descs.map mkScene)).2.2 = none ∧
    EpisodeStatus.stitching ∈ (run env).statusTrace := by
  have ha := genClipsLoop_fresh_no_error env.sceneGen descs
  refine ⟨ha, ?_⟩
  unfold run
  simp only [loadEpisode, hex, if_true, hs, ho, ha]
  cases hst : env.stitchResult with
  | error e => simp [failWith]
  | ok x =>
    cases hu : env.uploadResult with
    | error e => simp [failWith]
    | ok y =>
      cases hrr : env.raceRound with
      | none => simp [failWith]
      | some round =>
        by_cases hle : round ≤ STORAGE_RETENTION_RACES
        · simp [hle, failWith]
        · cases hc : env.cleanupResult with
          | error e => simp [hle, failWith]
          | ok z => simp [hle, failWith]

/-- Witness for the amended C2 at the environment whose only unit failed
once and is outstanding as FAILED. -/
theorem C2_stitch_gating_witness :
    (genClipsLoop envSceneFailOnce.sceneGen
       (([{ scene_number := 1 }] : List SceneDesc).map mkScene)).2.2 = none ∧
    EpisodeStatus.stitching ∈ (run envSceneFailOnce).statusTrace :=
  C2_stitch_gating envSceneFailOnce [{ scene_number := 1 }] rfl rfl rfl

/-- Helper: under the hypotheses that the episode loads, the script phase
returns, and the Ovi scope is entered, the processing order reported by
run is exactly the asset loop's. -/
theorem run_procOrder_eq (env : PipelineEnv) (descs : List SceneDesc)
    (hex : env.episodeExists = true)
    (hs : env.scriptResult = Except.ok descs)
    (ho : env.oviEnterOk = true) :
    (run env).procOrder =
      (genClipsLoop env.sceneGen (descs.map mkScene)).2.1 := by
  unfold run
  simp only [loadEpisode, hex, if_true, hs, ho]
  cases ha : (genClipsLoop env.sceneGen (descs.map mkScene)).2.2 with
  | some e => simp [ha, failWith]
  | none =>
    simp only [ha]
    cases hst : env.stitchResult with
    | error e => simp [failWith]
    | ok x =>
      cases hu : env.uploadResult with
      | error e => simp [failWith]
      | ok y =>
        cases hrr : env.raceRound with
        | none => simp [failWith]
        | some round =>
          by_cases hle : round ≤ STORAGE_RETENTION_RACES
          · simp [hle, failWith]
          · cases hc : env.cleanupResult with
            | error e => simp [hle, failWith]
            | ok z => simp [hle, failWith]

/-- Amended C9: the asset phase processes Scene Units in the order the
script collaborator returned the scene descriptions (a front segment of it
when a unit exhausts its retries); ascending sequence order therefore holds
exactly when the collaborator returned the descriptions in ascending
order. -/
theorem C9_processing_order (env : PipelineEnv) (descs : List SceneDesc)
    (hex : env.episodeExists = true)
    (hs : env.scriptResult = Except.ok descs)
    (ho : env.oviEnterOk = true) :
    (∃ k, (run env).procOrder =
       (descs.map SceneDesc.scene_number).take k) ∧
    (List.Chain' (fun a b => a < b) (descs.map SceneDesc.scene_number) →
       List.Chain' (fun a b => a < b) (run env).procOrder) := by
  have hmap : (descs.map mkScene).map Scene.scene_number =
      descs.map SceneDesc.scene_number := by
    simp [mkScene]
  have hord := run_procOrder_eq env descs hex hs ho
  obtain ⟨k, hk⟩ := genClipsLoop_order_take env.sceneGen (descs.map mkScene)
  rw [hmap] at hk
  refine ⟨⟨k, by rw [hord, hk]⟩, ?_⟩
  intro hchain
  rw [hord, hk]
  exact hchain.take k

/-- Witness for the amended C9 at the in-order environment envBase. -/
theorem C9_processing_order_witness :
    (∃ k, (run envBase).procOrder =
       (([{ scene_number := 1 }] : List SceneDesc).map
          SceneDesc.scene_number).take k) ∧
    List.Chain' (fun a b => a < b) (run envBase).procOrder := by
  have h := C9_processing_order envBase [{ scene_number := 1 }] rfl rfl rfl
  exact ⟨h.1, h.2 (by simp)⟩

/-- C7: for every run of a loaded, PENDING Job, the successive status
writes follow the claimed path; PUBLISHED appears only when both the stitch
and the upload collaborator calls succeeded; and whenever the run re-raises
an exception (any failure after Load), the Job is left FAILED with
last_error set to that exception. -/
theorem C7_status_machine (env : PipelineEnv)
    (hex : env.episodeExists = true)
    (hinit : env.initialStatus = EpisodeStatus.pending) :
    List.Chain (fun a b => okStep a b = true) env.initialStatus
      (run env).statusTrace ∧
    (EpisodeStatus.published ∈ (run env).statusTrace →
       (∃ x, env.stitchResult = Except.ok x) ∧
       (∃ y, env.uploadResult = Except.ok y)) ∧
    (∀ e, (run env).result = Except.error e →
       ((run env).episode.map EpState.status) = some EpisodeStatus.failed ∧
       ((run env).episode.bind EpState.last_error) = some e) := by
  rw [hinit]
  unfold run
  simp only [loadEpisode, hex, if_true]
  cases hsc : env.scriptResult with
  | error e => simp [failWith, List.Chain]; decide
  | ok descs =>
    cases hov : env.oviEnterOk with
    | false => simp [failWith]; decide
    | true =>
      simp only [Bool.true_eq_false, if_false]
      cases ha : (genClipsLoop env.sceneGen (descs.map mkScene)).2.2 with
      | some e => simp [failWith]; decide
      | none =>
        cases hst : env.stitchResult with
        | error e => simp [failWith]; decide
        | ok x =>
          cases hu : env.uploadResult with
          | error e => simp [failWith]; decide
          | ok y =>
            cases hrr : env.raceRound with
            | none => simp [failWith]; decide
            | some round =>
              by_cases hle : round ≤ STORAGE_RETENTION_RACES
              · simp [hle, failWith]; decide
              · cases hc : env.cleanupResult with
                | error e => simp [hle, failWith]; decide
                | ok z => simp [hle, failWith]; decide

/-- Witness for C7 at the fully succeeding environment envBase. -/
theorem C7_status_machine_witness :
    List.Chain (fun a b => okStep a b = true) envBase.initialStatus
      (run envBase).statusTrace ∧
    (EpisodeStatus.published ∈ (run envBase).statusTrace →
       (∃ x, envBase.stitchResult = Except.ok x) ∧
       (∃ y, envBase.uploadResult = Except.ok y)) :=
  ⟨(C7_status_machine envBase rfl rfl).1, (C7_status_machine envBase rfl rfl).2.1⟩

/-- Helper: a some-result of the abort check forces the exact
SceneGenerationError, a retry counter at the ceiling, and a failing
generation call. -/
theorem sceneAbort_some_form (gen : Nat → Except PyError Nat) (s : Scene)
    (e : PyError) (h : sceneAbort gen s = some e) :
    e = PyError.sceneGenError s.scene_number ∧
    MAX_SCENE_RETRIES ≤ s.retry_count + 1 ∧
    ∃ e0, gen s.scene_number = Except.error e0 := by
  unfold sceneAbort at h
  cases hg : gen s.scene_number with
  | ok c => rw [hg] at h; exact absurd h (by simp)
  | error e0 =>
    rw [hg] at h
    by_cases hle : MAX_SCENE_RETRIES ≤ s.retry_count + 1
    · rw [if_pos hle] at h
      exact ⟨(Option.some_injective _ h).symm, hle, e0, rfl⟩
    · rw [if_neg hle] at h
      exact absurd h (by simp)

/-- Helper: when the asset loop raises, the input splits into a fully
processed front, the aborting scene, and an untouched tail. -/
theorem genClipsLoop_error_decomp (gen : Nat → Except PyError Nat) :
    ∀ (scenes : List Scene) (e : PyError),
      (genClipsLoop gen scenes).2.2 = some e →
      ∃ pre t post, scenes = pre ++ t :: post ∧
        (genClipsLoop gen scenes).1 =
          pre.map (applyGen gen) ++ applyGen gen t :: post ∧
        (∀ u ∈ pre, sceneAbort gen u = none) ∧
        sceneAbort gen t = some e
  | [], e => by intro h; exact absurd h (by simp [genClipsLoop])
  | s :: rest, e => by
    intro h
    unfold genClipsLoop at h ⊢
    cases hab : sceneAbort gen s with
    | some e0 =>
      have he : e0 = e := by simpa [hab] using h
      subst he
      exact ⟨[], s, rest, rfl, by simp [hab], by simp, hab⟩
    | none =>
      have h2 : (genClipsLoop gen rest).2.2 = some e := by simpa [hab] using h
      obtain ⟨pre, t, post, hsp, hout, hpre, habt⟩ :=
        genClipsLoop_error_decomp gen rest e h2
      refine ⟨s :: pre, t, post, by simp [hsp], ?_, ?_, habt⟩
      · simp [hab, hout]
      · intro u hu
        cases hu with
        | head => exact hab
        | tail _ hu2 => exact hpre u hu2

/-- C6: a per-unit exception marks the unit FAILED, records its error, and
increments the persisted retry counter; the loop raises the typed
SceneGenerationError naming the unit's sequence number exactly when the
incremented counter reaches the ceiling of 3; on such an abort the input
decomposes into an already-processed front (whose successfully generated
units are COMPLETED), the exhausted unit, and an untouched tail.  The
raised error propagates out of the asset phase, aborting the Job through
the generic top-level failure handler. -/
theorem C6_unit_failure_and_exhaustion :
    (∀ (gen : Nat → Except PyError Nat) (s : Scene) (e : PyError),
       gen s.scene_number = Except.error e →
       (applyGen gen s).status = SceneStatus.failed ∧
       (applyGen gen s).last_error = some e ∧
       (applyGen gen s).retry_count = s.retry_count + 1) ∧
    (∀ (gen : Nat → Except PyError Nat) (s : Scene),
       (∃ e, gen s.scene_number = Except.error e) →
       (sceneAbort gen s = some (PyError.sceneGenError s.scene_number) ↔
         MAX_SCENE_RETRIES ≤ s.retry_count + 1)) ∧
    (∀ (gen : Nat → Except PyError Nat) (scenes : List Scene) (e : PyError),
       (genClipsLoop gen scenes).2.2 = some e →
       ∃ pre t post, scenes = pre ++ t :: post ∧
         e = PyError.sceneGenError t.scene_number ∧
         MAX_SCENE_RETRIES ≤ t.retry_count + 1 ∧
         (genClipsLoop gen scenes).1 =
           pre.map (applyGen gen) ++ applyGen gen t :: post ∧
         (∀ u ∈ pre, ∀ c, gen u.scene_number = Except.ok c →
            (applyGen gen u).status = SceneStatus.completed)) := by
  refine ⟨?_, ?_, ?_⟩
  · intro gen s e hg
    simp [applyGen, hg]
  · intro gen s hex
    obtain ⟨e, hg⟩ := hex
    constructor
    · intro h
      exact (sceneAbort_some_form gen s _ h).2.1
    · intro hle
      simp [sceneAbort, hg, hle]
  · intro gen scenes e h
    obtain ⟨pre, t, post, hsp, hout, hpre, habt⟩ :=
      genClipsLoop_error_decomp gen scenes e h
    obtain ⟨he, hle, _⟩ := sceneAbort_some_form gen t e habt
    refine ⟨pre, t, post, hsp, he, hle, hout, ?_⟩
    intro u hu c hg
    simp [applyGen, hg]

/-- Witness for C6: unit 7 fails with its counter at the ceiling, the loop
raises SceneGenerationError 7 and the processed front stays COMPLETED. -/
theorem C6_unit_failure_and_exhaustion_witness :
    ((applyGen g7 scene7).status = SceneStatus.failed ∧
     (applyGen g7 scene7).last_error = some (PyError.genericError 3) ∧
     (applyGen g7 scene7).retry_count = scene7.retry_count + 1) ∧
    (sceneAbort g7 scene7 = some (PyError.sceneGenError 7) ↔
      MAX_SCENE_RETRIES ≤ scene7.retry_count + 1) ∧
    (∃ pre t post,
       [mkScene { scene_number := 1 }, scene7] = pre ++ t :: post ∧
       PyError.sceneGenError 7 = PyError.sceneGenError t.scene_number ∧
       MAX_SCENE_RETRIES ≤ t.retry_count + 1 ∧
       (genClipsLoop g7 [mkScene { scene_number := 1 }, scene7]).1 =
         pre.map (applyGen g7) ++ applyGen g7 t :: post ∧
       (∀ u ∈ pre, ∀ c, g7 u.scene_number = Except.ok c →
          (applyGen g7 u).status = SceneStatus.completed)) := by
  refine ⟨C6_unit_failure_and_exhaustion.1 g7 scene7
      (PyError.genericError 3) (by decide),
    C6_unit_failure_and_exhaustion.2.1 g7 scene7
      ⟨PyError.genericError 3, by decide⟩, ?_⟩
  exact C6_unit_failure_and_exhaustion.2.2 g7
    [mkScene { scene_number := 1 }, scene7] (PyError.sceneGenError 7)
    (by decide)

/-- C4: the scoped acquisition of the Resource Session: entering calls
ensure_running and raises the typed VideoGenerationError when it reports
failure, never yielding control to the body; once entered, exiting — with
the body returning normally or raising — always calls shutdown(), so the
pause command is issued (the pipeline's auto_shutdown default). -/
theorem C4_scoped_acquisition {α : Type} (w : OviWorld)
    (body : MgrState → Except PyError α × MgrState × List OviEvent) :
    ((ensureRunning w initMgr).1 = false →
       withOviManager w body =
         (Except.error PyError.videoGenError, (ensureRunning w initMgr).2.2)) ∧
    ((ensureRunning w initMgr).1 = true →
       (withOviManager w body).1 = (body (ensureRunning w initMgr).2.1).1 ∧
       OviEvent.pauseCmd ∈ (withOviManager w body).2) := by
  constructor
  · intro hfail
    unfold withOviManager aenterOvi
    simp [hfail]
  · intro hok
    unfold withOviManager aenterOvi
    simp [hok, shutdownOvi]

/-- Witness for C4: a failed acquisition raises without running the body;
a successful one pauses the space on exit for a normal and for a raising
body alike. -/
theorem C4_scoped_acquisition_witness :
    withOviManager wBad bodyOk =
      (Except.error PyError.videoGenError, (ensureRunning wBad initMgr).2.2) ∧
    OviEvent.pauseCmd ∈ (withOviManager wGood bodyOk).2 ∧
    OviEvent.pauseCmd ∈ (withOviManager wGood bodyRaise).2 :=
  ⟨(C4_scoped_acquisition wBad bodyOk).1 (by decide),
   ((C4_scoped_acquisition wGood bodyOk).2 (by decide)).2,
   ((C4_scoped_acquisition wGood bodyRaise).2 (by decide)).2⟩

/-- Helper: a trace with neither status checks nor backoffs counts zero of
the former and filters to nothing of the latter. -/
theorem neutral_count (l : List OviEvent)
    (h : ∀ e ∈ l, isStatusCheck e = false ∧ backoffSecs e = none) :
    l.countP isStatusCheck = 0 ∧ l.filterMap backoffSecs = [] := by
  induction l with
  | nil => simp
  | cons x xs ih =>
    have hx := h x (List.mem_cons_self x xs)
    have ihr := ih (fun e he => h e (List.mem_cons_of_mem x he))
    simp [List.countP_cons, hx.1, hx.2, ihr.1, ihr.2]

/-- Helper: verify_healthy emits no top-level status check and no
backoff. -/
theorem verifyHealthy_events (w : OviWorld) (st : MgrState) :
    ∀ e ∈ (verifyHealthy w st).2.2,
      isStatusCheck e = false ∧ backoffSecs e = none := by
  unfold verifyHealthy
  by_cases h : w.status st.nStatus = SpaceStatus.RUNNING
  · simp only [h, if_pos rfl]
    intro e he
    simp at he
    rcases he with h1 | h1 <;> subst h1 <;> exact ⟨rfl, rfl⟩
  · simp only [if_neg h]
    intro e he
    simp at he
    subst he
    exact ⟨rfl, rfl⟩

/-- Helper: wait_for_ready emits only poll events. -/
theorem waitForReady_events (w : OviWorld) :
    ∀ (fuel : Nat) (st : MgrState), ∀ e ∈ (waitForReady w fuel st).2.2,
      isStatusCheck e = false ∧ backoffSecs e = none := by
  intro fuel
  induction fuel with
  | zero => intro st e he; simp [waitForReady] at he
  | succ n ih =>
    intro st e he
    unfold waitForReady at he
    by_cases h1 : w.status st.nStatus = SpaceStatus.RUNNING
    · simp [h1] at he; subst he; exact ⟨rfl, rfl⟩
    · by_cases h2 : w.status st.nStatus = SpaceStatus.ERROR
      · simp [h1, h2] at he; subst he; exact ⟨rfl, rfl⟩
      · simp [h1, h2] at he
        rcases he with h3 | h3
        · subst h3; exact ⟨rfl, rfl⟩
        · exact ih _ e h3

/-- Helper: the initial branch of an ensure cycle emits no top-level
status check and no backoff. -/
theorem ensureBranch_events (w : OviWorld) (st : MgrState) (s : SpaceStatus) :
    ∀ e ∈ (ensureBranch w st s).2.2,
      isStatusCheck e = false ∧ backoffSecs e = none := by
  cases s with
  | RUNNING =>
    unfold ensureBranch
    by_cases hv : (verifyHealthy w st).1.is_ready
    · simp only [hv, if_pos rfl]
      exact verifyHealthy_events w st
    · simp only [if_neg hv]
      intro e he
      rcases List.mem_append.mp he with h1 | h1
      · exact verifyHealthy_events w st e h1
      · simp at h1; subst h1; exact ⟨rfl, rfl⟩
  | SLEEPING => intro e he; simp [ensureBranch] at he; subst he; exact ⟨rfl, rfl⟩
  | PAUSED => intro e he; simp [ensureBranch] at he; subst he; exact ⟨rfl, rfl⟩
  | STOPPED => intro e he; simp [ensureBranch] at he; subst he; exact ⟨rfl, rfl⟩
  | ERROR => intro e he; simp [ensureBranch] at he; subst he; exact ⟨rfl, rfl⟩
  | BUILDING => intro e he; simp [ensureBranch] at he
  | UNKNOWN => intro e he; simp [ensureBranch] at he

/-- Helper: one ensure cycle's trace is one status check followed by
events that are neither status checks nor backoffs. -/
theorem ensureAttempt_trace_form (w : OviWorld) (st : MgrState) :
    ∃ s tail, (ensureAttempt w st).2.2 = OviEvent.statusCheck s :: tail ∧
      ∀ e ∈ tail, isStatusCheck e = false ∧ backoffSecs e = none := by
  unfold ensureAttempt
  rcases hb : ensureBranch w { st with nStatus := st.nStatus + 1 }
      (w.status st.nStatus) with ⟨ob, stb, tb⟩
  have htb : ∀ e ∈ tb, isStatusCheck e = false ∧ backoffSecs e = none := by
    have h0 := ensureBranch_events w { st with nStatus := st.nStatus + 1 }
      (w.status st.nStatus)
    rw [hb] at h0
    exact h0
  have hwt : ∀ e ∈ tb ++ (waitForReady w TIMEOUT_POLLS stb).2.2,
      isStatusCheck e = false ∧ backoffSecs e = none := by
    intro e he
    rcases List.mem_append.mp he with h1 | h1
    · exact htb e h1
    · exact waitForReady_events w TIMEOUT_POLLS stb e h1
  have hwtv : ∀ e ∈ tb ++ (waitForReady w TIMEOUT_POLLS stb).2.2 ++
      (verifyHealthy w (waitForReady w TIMEOUT_POLLS stb).2.1).2.2,
      isStatusCheck e = false ∧ backoffSecs e = none := by
    intro e he
    rcases List.mem_append.mp he with h1 | h1
    · exact hwt e h1
    · exact verifyHealthy_events w _ e h1
  rcases ob with _ | b
  · by_cases hwr : (waitForReady w TIMEOUT_POLLS stb).1 = true
    · simp only [hwr, if_pos rfl]
      exact ⟨_, _, rfl, hwtv⟩
    · simp only [if_neg hwr]
      exact ⟨_, _, rfl, hwt⟩
  · cases b with
    | true => exact ⟨_, tb, rfl, htb⟩
    | false =>
      by_cases hwr : (waitForReady w TIMEOUT_POLLS stb).1 = true
      · simp only [hwr, if_pos rfl]
        exact ⟨_, _, rfl, hwtv⟩
      · simp only [if_neg hwr]
        exact ⟨_, _, rfl, hwt⟩

/-- Helper: one ensure cycle contributes exactly one status check and no
backoff to the trace. -/
theorem ensureAttempt_counts (w : OviWorld) (st : MgrState) :
    ((ensureAttempt w st).2.2).countP isStatusCheck = 1 ∧
    ((ensureAttempt w st).2.2).filterMap backoffSecs = [] := by
  obtain ⟨s, tail, hform, hneut⟩ := ensureAttempt_trace_form w st
  have hc := neutral_count tail hneut
  rw [hform]
  simp [List.countP_cons, isStatusCheck, backoffSecs, hc.1, hc.2]

/-- Helper: the retry loop runs at most `n` cycles (status checks) and its
backoff sleeps are exactly the first k entries of (attempt index) * 30
seconds, with at most n - 1 of them. -/
theorem ensureLoop_bounds (w : OviWorld) :
    ∀ (n a : Nat) (st : MgrState),
      ((ensureLoop w n a st).2.2).countP isStatusCheck ≤ n ∧
      ∃ k, k ≤ n - 1 ∧
        ((ensureLoop w n a st).2.2).filterMap backoffSecs =
          (List.range k).map (fun i => (a + 1 + i) * 30) := by
  intro n
  induction n with
  | zero =>
    intro a st
    exact ⟨by simp [ensureLoop], 0, by simp, by simp [ensureLoop]⟩
  | succ m ih =>
    intro a st
    have hat := ensureAttempt_counts w st
    unfold ensureLoop
    by_cases h1 : (ensureAttempt w st).1 = true
    · rw [if_pos h1]
      refine ⟨?_, 0, by omega, ?_⟩
      · show List.countP isStatusCheck (ensureAttempt w st).2.2 ≤ m + 1
        rw [hat.1]
        omega
      · show List.filterMap backoffSecs (ensureAttempt w st).2.2 =
          (List.range 0).map (fun i => (a + 1 + i) * 30)
        rw [hat.2]
        rfl
    · rw [if_neg h1]
      by_cases h2 : m = 0
      · rw [if_pos h2]
        refine ⟨?_, 0, by omega, ?_⟩
        · show List.countP isStatusCheck (ensureAttempt w st).2.2 ≤ m + 1
          rw [hat.1]
          omega
        · show List.filterMap backoffSecs (ensureAttempt w st).2.2 =
            (List.range 0).map (fun i => (a + 1 + i) * 30)
          rw [hat.2]
          rfl
      · rw [if_neg h2]
        obtain ⟨ihc, k, hk, hfm⟩ := ih (a + 1) (ensureAttempt w st).2.1
        constructor
        · show List.countP isStatusCheck ((ensureAttempt w st).2.2 ++
            OviEvent.backoffSleep ((a + 1) * 30) ::
              (ensureLoop w m (a + 1) (ensureAttempt w st).2.1).2.2) ≤ m + 1
          rw [List.countP_append, hat.1, List.countP_cons]
          have hb0 : isStatusCheck (OviEvent.backoffSleep ((a + 1) * 30)) =
              false := rfl
          simp only [hb0, Bool.false_eq_true, if_false]
          omega
        · refine ⟨k + 1, by omega, ?_⟩
          show List.filterMap backoffSecs ((ensureAttempt w st).2.2 ++
            OviEvent.backoffSleep ((a + 1) * 30) ::
              (ensureLoop w m (a + 1) (ensureAttempt w st).2.1).2.2) =
            (List.range (k + 1)).map (fun i => (a + 1 + i) * 30)
          rw [List.filterMap_append, hat.2, List.nil_append,
            List.filterMap_cons]
          have hb1 : backoffSecs (OviEvent.backoffSleep ((a + 1) * 30)) =
              some ((a + 1) * 30) := rfl
          rw [hb1, hfm, List.range_succ_eq_map, List.map_cons, List.map_map]
          refine congrArg₂ List.cons (by ring) ?_
          apply List.map_congr_left
          intro i _
          show (a + 1 + 1 + i) * 30 = (a + 1 + Nat.succ i) * 30
          omega

/-- C5: ensure_running repeats its ensure-cycle at most 3 times (one
status check per cycle), sleeps attempt-index * 30 seconds between
successive attempts (30s after attempt 1, 60s after attempt 2, never after
the last), and when it reports failure the scoped acquisition raises the
typed VideoGenerationError instead of silently skipping the failure. -/
theorem C5_retry_ceiling_and_backoff (w : OviWorld) :
    ((ensureRunning w initMgr).2.2).countP isStatusCheck ≤ OVI_MAX_RETRIES ∧
    (∃ k, k ≤ OVI_MAX_RETRIES - 1 ∧
       ((ensureRunning w initMgr).2.2).filterMap backoffSecs =
         (List.range k).map (fun i => (i + 1) * 30)) ∧
    ((ensureRunning w initMgr).1 = false →
       (aenterOvi w initMgr).1 = Except.error PyError.videoGenError) := by
  obtain ⟨hc, k, hk, hfm⟩ := ensureLoop_bounds w OVI_MAX_RETRIES 0 initMgr
  refine ⟨hc, ⟨k, hk, ?_⟩, ?_⟩
  · rw [show ensureRunning w initMgr = ensureLoop w OVI_MAX_RETRIES 0 initMgr
      from rfl, hfm]
    apply List.map_congr_left
    intro i _
    ring
  · intro hfail
    unfold aenterOvi
    simp [hfail]

/-- Witness for C5 at the permanently erroring backend: three cycles, the
backoffs 30 and 60, failure surfaced as the typed error. -/
theorem C5_retry_ceiling_and_backoff_witness :
    ((ensureRunning wBad initMgr).2.2).countP isStatusCheck ≤
      OVI_MAX_RETRIES ∧
    (aenterOvi wBad initMgr).1 = Except.error PyError.videoGenError :=
  ⟨(C5_retry_ceiling_and_backoff wBad).1,
   (C5_retry_ceiling_and_backoff wBad).2.2 (by decide)⟩

/-- Helper: with poll budget remaining, wait_for_ready's first action is a
status poll. -/
theorem waitForReady_head (w : OviWorld) (fuel : Nat) (st : MgrState) :
    ∃ t, (waitForReady w (fuel + 1) st).2.2 =
      OviEvent.pollStatus (w.status st.nStatus) :: t := by
  unfold waitForReady
  by_cases h1 : w.status st.nStatus = SpaceStatus.RUNNING
  · rw [if_pos h1]
    exact ⟨[], rfl⟩
  · rw [if_neg h1]
    by_cases h2 : w.status st.nStatus = SpaceStatus.ERROR
    · rw [if_pos h2]
      exact ⟨[], rfl⟩
    · rw [if_neg h2]
      exact ⟨_, rfl⟩

/-- Helper: an ensure cycle that reads SLEEPING issues exactly one restart
command and then begins polling: its trace starts with the status check,
the restart, then the first poll. -/
theorem ensureAttempt_sleeping (w : OviWorld) (st : MgrState)
    (hsl : w.status st.nStatus = SpaceStatus.SLEEPING) :
    ∃ t, (ensureAttempt w st).2.2 =
      OviEvent.statusCheck SpaceStatus.SLEEPING :: OviEvent.restartCmd ::
        OviEvent.pollStatus (w.status (st.nStatus + 1)) :: t := by
  unfold ensureAttempt
  rw [hsl]
  simp only [ensureBranch]
  obtain ⟨tp, htp⟩ := waitForReady_head w 29
    (startSpace { st with nStatus := st.nStatus + 1 })
  have h30 : TIMEOUT_POLLS = 29 + 1 := rfl
  by_cases hwr : (waitForReady w TIMEOUT_POLLS
      (startSpace { st with nStatus := st.nStatus + 1 })).1 = true
  · rw [if_pos hwr]
    refine ⟨tp ++ (verifyHealthy w (waitForReady w TIMEOUT_POLLS
      (startSpace { st with nStatus := st.nStatus + 1 })).2.1).2.2, ?_⟩
    show OviEvent.statusCheck SpaceStatus.SLEEPING ::
      ([OviEvent.restartCmd] ++ (waitForReady w TIMEOUT_POLLS
        (startSpace { st with nStatus := st.nStatus + 1 })).2.2 ++ _) = _
    rw [h30, htp]
    simp [startSpace]
  · rw [if_neg hwr]
    refine ⟨tp, ?_⟩
    show OviEvent.statusCheck SpaceStatus.SLEEPING ::
      ([OviEvent.restartCmd] ++ (waitForReady w TIMEOUT_POLLS
        (startSpace { st with nStatus := st.nStatus + 1 })).2.2) = _
    rw [h30, htp]
    simp [startSpace]

/-- Helper: the retry loop's trace extends its first cycle's trace. -/
theorem ensureLoop_trace_ext (w : OviWorld) (n a : Nat) (st : MgrState) :
    ∃ t2, (ensureLoop w (n + 1) a st).2.2 = (ensureAttempt w st).2.2 ++ t2 := by
  unfold ensureLoop
  by_cases h1 : (ensureAttempt w st).1 = true
  · rw [if_pos h1]
    exact ⟨[], (List.append_nil _).symm⟩
  · rw [if_neg h1]
    by_cases h2 : n = 0
    · rw [if_pos h2]
      exact ⟨[], (List.append_nil _).symm⟩
    · rw [if_neg h2]
      exact ⟨_, rfl⟩

/-- C8: when the backend already reports RUNNING and the liveness probe
succeeds, ensure_running succeeds and no restart command is issued;
when the backend reports SLEEPING, exactly one restart command is issued
before the readiness polling begins (the trace starts: status check,
restart, first poll). -/
theorem C8_restart_policy (w : OviWorld) :
    ((∀ i, w.status i = SpaceStatus.RUNNING) → w.probe 0 = true →
       (ensureRunning w initMgr).1 = true ∧
       OviEvent.restartCmd ∉ (ensureRunning w initMgr).2.2) ∧
    (w.status 0 = SpaceStatus.SLEEPING →
       ∃ t, (ensureRunning w initMgr).2.2 =
         OviEvent.statusCheck SpaceStatus.SLEEPING :: OviEvent.restartCmd ::
           OviEvent.pollStatus (w.status 1) :: t) := by
  constructor
  · intro h hp
    constructor <;>
      simp [ensureRunning, ensureLoop, ensureAttempt, ensureBranch,
        verifyHealthy, initMgr, h, hp]
  · intro hsl
    obtain ⟨t0, ht0⟩ := ensureAttempt_sleeping w initMgr
      (by simpa [initMgr] using hsl)
    obtain ⟨t2, ht2⟩ := ensureLoop_trace_ext w 2 0 initMgr
    refine ⟨t0 ++ t2, ?_⟩
    show (ensureLoop w 3 0 initMgr).2.2 = _
    rw [show (ensureLoop w 3 0 initMgr).2.2 =
      (ensureLoop w (2 + 1) 0 initMgr).2.2 from rfl, ht2, ht0]
    simp [initMgr]

/-- Witness for C8 at a ready backend and at a sleeping backend. -/
theorem C8_restart_policy_witness :
    ((ensureRunning wGood initMgr).1 = true ∧
     OviEvent.restartCmd ∉ (ensureRunning wGood initMgr).2.2) ∧
    (∃ t, (ensureRunning wSleep initMgr).2.2 =
       OviEvent.statusCheck SpaceStatus.SLEEPING :: OviEvent.restartCmd ::
         OviEvent.pollStatus (wSleep.status 1) :: t) :=
  ⟨(C8_restart_policy wGood).1 (fun _ => rfl) rfl,
   (C8_restart_policy wSleep).2 rfl⟩
